import Mathlib

/-!
# Service_Backend: a shallow embedding of `index.js`

The development follows `index.js` top to bottom:

* the module-level configuration (`port`, `DB_HOST`, ..., `JWT_SECRET`, `ADMIN_EMAIL`);
* `startServer`, which creates the pool, checks the connection, registers the
  routes and listens;
* the callbacks that `startServer` registers: the `auth` middleware,
  `sendSubmissionEmail`, and the handlers of the four routes.

The packages the file requires are modelled only as far as `index.js` uses them:

* `mysql2`: the table `submissions` is a list of rows in primary-key order plus the
  auto-increment counter; `pool.execute` either rejects (connection or query failure,
  an input of the request environment) or runs the statement;
* `nodemailer`: `transporter.sendMail` either rejects or hands the message to the relay
  (again an input of the request environment);
* `jsonwebtoken`: a token is its payload together with the key it was signed with;
  the string form of a token is left to `Platform.decodeJwt`.

Every call that leaves the process is recorded in `World.trace`, so that
"the handler did not run" and "no email was sent" are statements about the trace.
-/

namespace ServiceBackend

/-! ## JavaScript values -/

/-- A JavaScript value as it occurs in a parsed JSON body field, a bound SQL parameter,
a column of a result row or a field of the email data. `undefined` is an absent body
field. `other tag` is a value of any further kind (a number, an array, an object):
the tag names the value, and what `String()` makes of it is the runtime's business
(`Platform.otherToString`). -/
inductive JsValue where
  | undefined
  | null
  | bool (b : Bool)
  | string (s : String)
  | date (ms : Nat)
  | other (tag : Nat)
  deriving DecidableEq, Repr

/-- An exception raised while a handler runs. -/
inductive JsError where
  | typeError (msg : String)
  | referenceError (name : String)
  | error (msg : String)
  deriving DecidableEq, Repr

/-- The payload of a token: the claim `username`, and `iat` and `exp` in seconds. -/
structure Payload where
  username : String
  iat : Nat
  exp : Nat
  deriving DecidableEq, Repr

/-- A signed token: its payload and the key that produced its signature. -/
structure Token where
  payload : Payload
  key : String
  deriving DecidableEq, Repr

/-- A row of the table `submissions(id, name, contact_number, service, description,
created_at)`; `created_at` is in milliseconds since the epoch. -/
structure Row where
  id : Nat
  name : JsValue
  contact_number : JsValue
  service : JsValue
  description : JsValue
  created_at : Nat
  deriving DecidableEq, Repr

/-- What the runtime and the external services decide and `index.js` does not:
the formatting of dates, the conversion to string of numbers, arrays and objects, the
comparison MySQL makes between the integer column `Id` and the string parameter of the
route, the decoding of a compact token string, and the order in which MySQL hands the
rows of the table to a sort (any rearrangement of the table), which settles the order
of rows that are equal under the sort key. -/
structure Platform where
  dateToString : Nat → String
  dateToLocaleString : Nat → String
  otherToString : Nat → String
  idMatches : String → Nat → Bool
  decodeJwt : String → Option Token
  scanOrder : List Row → List Row
  scanOrder_perm : ∀ rows : List Row, (scanOrder rows).Perm rows

/-- The conversion `String(v)`, also what a template literal does to `v`. -/
def jsString (P : Platform) : JsValue → String
  | .undefined => "undefined"
  | .null => "null"
  | .bool true => "true"
  | .bool false => "false"
  | .string s => s
  | .date ms => P.dateToString ms
  | .other tag => P.otherToString tag

/-- The operator `a || b` on values that are a string or `undefined`:
`undefined` and the empty string are falsy. -/
def jsOr (a b : Option String) : Option String :=
  match a with
  | some s => if s = "" then b else some s
  | none => b

/-- Splitting a list of characters at every occurrence of `sep`, as
`String.prototype.split` does for a one-character separator. -/
def splitChars (sep : Char) : List Char → List (List Char)
  | [] => [[]]
  | c :: cs =>
    if c = sep then [] :: splitChars sep cs
    else
      match splitChars sep cs with
      | [] => [[c]]
      | w :: ws => (c :: w) :: ws

/-- The call `s.split(sep)` for a one-character separator. -/
def jsSplit (s : String) (sep : Char) : List String :=
  (splitChars sep s.toList).map String.mk

/-! ## Module-level configuration -/

/-- The variables of `process.env` that `index.js` reads. -/
structure ProcessEnv where
  PORT : Option String
  HOST : Option String
  MYSQL_HOST : Option String
  USER : Option String
  MYSQL_USER : Option String
  PASSWORD : Option String
  MYSQL_PASSWORD : Option String
  DATABASE : Option String
  MYSQL_DATABASE : Option String
  JWT_SECRET : Option String
  ADMIN_EMAIL : Option String
  EMAIL_USER : Option String
  EMAIL_PASS : Option String
  deriving DecidableEq, Repr

/-- A value of `port`: the string of `process.env.PORT` or a number. -/
inductive PortValue where
  | fromEnv (s : String)
  | number (n : Nat)
  deriving DecidableEq, Repr

/-- The default of `const port = process.env.PORT || 5000`. -/
def defaultPort : PortValue := .number 5000

/-- The constant `port = process.env.PORT || 5000`. -/
def port (penv : ProcessEnv) : PortValue :=
  match jsOr penv.PORT none with
  | some p => .fromEnv p
  | none => defaultPort

/-- The constant `DB_HOST = process.env.HOST || process.env.MYSQL_HOST`. -/
def DB_HOST (penv : ProcessEnv) : Option String := jsOr penv.HOST penv.MYSQL_HOST

/-- The constant `DB_USER = process.env.USER || process.env.MYSQL_USER`. -/
def DB_USER (penv : ProcessEnv) : Option String := jsOr penv.USER penv.MYSQL_USER

/-- The constant `DB_PASSWORD = process.env.PASSWORD || process.env.MYSQL_PASSWORD`. -/
def DB_PASSWORD (penv : ProcessEnv) : Option String := jsOr penv.PASSWORD penv.MYSQL_PASSWORD

/-- The constant `DB_DATABASE = process.env.DATABASE || process.env.MYSQL_DATABASE`. -/
def DB_DATABASE (penv : ProcessEnv) : Option String := jsOr penv.DATABASE penv.MYSQL_DATABASE

/-- The constant `JWT_SECRET = process.env.JWT_SECRET`. -/
def JWT_SECRET (penv : ProcessEnv) : Option String := penv.JWT_SECRET

/-- The constant `ADMIN_EMAIL = process.env.ADMIN_EMAIL`. -/
def ADMIN_EMAIL (penv : ProcessEnv) : Option String := penv.ADMIN_EMAIL

/-- The identifiers bound at the top level of `index.js` (lines 6 to 28), in order of
declaration. -/
def moduleScope : List String :=
  ["express", "bodyParser", "jwt", "nodemailer", "mysql", "cors", "app", "port",
   "DB_HOST", "DB_USER", "DB_PASSWORD", "DB_DATABASE", "JWT_SECRET", "ADMIN_EMAIL",
   "pool", "startServer"]

/-- The identifiers Node binds for every CommonJS module and the globals the file uses. -/
def globalScope : List String :=
  ["process", "console", "require", "module", "exports", "Date", "String", "Error"]

/-- The string value of a top-level configuration constant; other bindings (functions,
packages) carry no string and evaluate to `none` here. -/
def moduleConst (penv : ProcessEnv) (name : String) : Option String :=
  if name = "DB_HOST" then DB_HOST penv
  else if name = "DB_USER" then DB_USER penv
  else if name = "DB_PASSWORD" then DB_PASSWORD penv
  else if name = "DB_DATABASE" then DB_DATABASE penv
  else if name = "JWT_SECRET" then JWT_SECRET penv
  else if name = "ADMIN_EMAIL" then ADMIN_EMAIL penv
  else none

/-- Evaluation of an identifier inside `startServer`: a name bound in no enclosing
scope raises a `ReferenceError`. -/
def evalIdent (penv : ProcessEnv) (name : String) : Except JsError (Option String) :=
  if name ∈ moduleScope ∨ name ∈ globalScope then .ok (moduleConst penv name)
  else .error (.referenceError name)

/-! ## The store, the mail relay and the trace -/

/-- The three statements `index.js` passes to `pool.execute`, with their bound
parameters in the order of the placeholders. -/
inductive Query where
  -- INSERT INTO submissions (name, contact_number, service, description, created_at)
  -- VALUES (?, ?, ?, ?, ?)
  | insertSubmission (name contact_number service description : JsValue) (created_at : Nat)
  -- SELECT * FROM submissions ORDER BY created_at DESC
  | selectAllNewestFirst
  -- SELECT * FROM submissions WHERE Id = ?
  | selectById (id : String)
  deriving DecidableEq, Repr

/-- The object `mailOptions` handed to `transporter.sendMail`. -/
structure Email where
  from_ : String
  to_ : Option String
  subject : String
  html : String
  deriving DecidableEq, Repr

/-- A call that left the process, with its outcome. -/
inductive Event where
  | query (q : Query) (ok : Bool)
  | mail (m : Email) (ok : Bool)
  | sign (t : Token)
  deriving DecidableEq, Repr

/-- The state outside the handlers: the table, its auto-increment counter, and the
trace of external calls made so far. -/
structure World where
  rows : List Row
  nextId : Nat
  trace : List Event
  deriving DecidableEq, Repr

/-- What the environment decides for one request: the two readings of the clock
(`new Date()`, `Date.now()`) in milliseconds, whether the pool runs the statement,
and whether the relay accepts the message. -/
structure Env where
  now : Nat
  now2 : Nat
  dbOk : Bool
  smtpOk : Bool
  deriving DecidableEq, Repr

/-- The order of `ORDER BY created_at DESC`: `a` may precede `b` when `a` is not older. -/
def createdAtDesc (a b : Row) : Prop := b.created_at ≤ a.created_at

instance : DecidableRel createdAtDesc := fun a b => Nat.decLe b.created_at a.created_at

/-- The clause `ORDER BY created_at DESC`, the statement's only sort key: the rows, in
the order the platform scans them, sorted newest first. The statement names no second
key, so the order among rows with equal `created_at` is the platform's. -/
def orderByCreatedAtDesc (P : Platform) (rows : List Row) : List Row :=
  (P.scanOrder rows).insertionSort createdAtDesc

/-- The call `await pool.execute(query, params)`: the result rows and the world after. -/
def execute (P : Platform) (dbOk : Bool) (q : Query) (w : World) :
    Except JsError (List Row) × World :=
  if dbOk then
    match q with
    | .insertSubmission n c s d t =>
      (.ok [],
       { rows := w.rows ++ [{ id := w.nextId, name := n, contact_number := c, service := s,
                              description := d, created_at := t }],
         nextId := w.nextId + 1,
         trace := w.trace ++ [.query q true] })
    | .selectAllNewestFirst =>
      (.ok (orderByCreatedAtDesc P w.rows), { w with trace := w.trace ++ [.query q true] })
    | .selectById id =>
      (.ok (w.rows.filter (fun r => P.idMatches id r.id)),
       { w with trace := w.trace ++ [.query q true] })
  else
    (.error (.error "store error"), { w with trace := w.trace ++ [.query q false] })

/-! ## The notifier -/

/-- The argument `submission` of `sendSubmissionEmail`. -/
structure EmailData where
  name : JsValue
  contact_number : JsValue
  service : JsValue
  description : JsValue
  created_at : JsValue
  deriving DecidableEq, Repr

/-- The template literal of `mailOptions.html`, line breaks and indentation included. -/
def htmlTemplate (name contact_number service description created_at : String) : String :=
  "\n                    <h2>New Contact Form Submission</h2>" ++
  "\n                    <p><strong>Name:</strong> " ++ name ++ "</p>" ++
  "\n                    <p><strong>Contact Number:</strong> " ++ contact_number ++ "</p>" ++
  "\n                    <p><strong>Service:</strong> " ++ service ++ "</p>" ++
  "\n                    <p><strong>Description:</strong> " ++ description ++ "</p>" ++
  "\n                    <p><strong>Submission Date:</strong> " ++ created_at ++ "</p>" ++
  "\n                "

/-- The object `mailOptions` that `sendSubmissionEmail` builds from `submission`. -/
def mailOptions (P : Platform) (penv : ProcessEnv) (submission : EmailData) : Email :=
  { from_ := "\x22New Submission\x22 <" ++
      (match penv.EMAIL_USER with | some u => u | none => "undefined") ++ ">",
    to_ := ADMIN_EMAIL penv,
    subject := "New Form Submission: " ++ jsString P submission.service,
    html := htmlTemplate (jsString P submission.name) (jsString P submission.contact_number)
      (jsString P submission.service) (jsString P submission.description)
      (jsString P submission.created_at) }

/-- The function `sendSubmissionEmail`: one call of `transporter.sendMail`; a rejection
is rethrown as `Error('Failed to send email')`. -/
def sendSubmissionEmail (P : Platform) (penv : ProcessEnv) (smtpOk : Bool)
    (submission : EmailData) (w : World) : Except JsError Unit × World :=
  let m := mailOptions P penv submission
  if smtpOk then
    (.ok (), { w with trace := w.trace ++ [.mail m true] })
  else
    (.error (.error "Failed to send email"), { w with trace := w.trace ++ [.mail m false] })

/-! ## Tokens -/

/-- The option `expiresIn: '1h'`, in seconds. -/
def expiresIn : Nat := 3600

/-- The call `jwt.sign(payload, secret, options)`: it throws when the secret is
`undefined` or empty; otherwise `iat` is the clock in whole seconds
(`Math.floor(Date.now() / 1000)`) and `exp` is `iat` plus the lifetime. -/
def jwtSign (username : String) (secret : Option String) (lifetime : Nat) (nowMs : Nat) :
    Except JsError Token :=
  match secret with
  | none => .error (.error "secretOrPrivateKey must have a value")
  | some k =>
    if k = "" then .error (.error "secretOrPrivateKey must have a value")
    else .ok { payload := { username := username, iat := nowMs / 1000,
                            exp := nowMs / 1000 + lifetime },
               key := k }

/-- The call `jwt.verify(token, secret)`: it throws when the token is absent, is not a
well-formed token, was signed with another key, or when the clock in whole seconds has
reached `exp`; otherwise it returns the payload. -/
def jwtVerify (P : Platform) (token : Option String) (secret : Option String) (nowMs : Nat) :
    Except JsError Payload :=
  match token with
  | none => .error (.error "jwt must be provided")
  | some s =>
    if s = "" then .error (.error "jwt must be provided")
    else
      match P.decodeJwt s with
      | none => .error (.error "jwt malformed")
      | some tok =>
        match secret with
        | none => .error (.error "secret or public key must be provided")
        | some k =>
          if k = "" then .error (.error "secret or public key must be provided")
          else if tok.key ≠ k then .error (.error "invalid signature")
          else if tok.payload.exp ≤ nowMs / 1000 then .error (.error "jwt expired")
          else .ok tok.payload

/-! ## Responses and the callbacks registered by `startServer` -/

/-- The JSON body of a response: a `message` object, the object `{ token }` (carrying
the string form of the token), or the array of rows. -/
inductive ResBody where
  | message (m : String)
  | token (t : Token)
  | rows (rs : List Row)
  deriving DecidableEq, Repr

/-- The result of `res.status(s).json(b)`. -/
structure Response where
  status : Nat
  body : ResBody
  deriving DecidableEq, Repr

/-- The shape of the constant `adminUser`. -/
structure AdminUser where
  username : String
  password : String
  deriving DecidableEq, Repr

/-- The constant `adminUser`. -/
def adminUser : AdminUser := { username := "admin", password := "admin_password" }

/-- The expression `req.headers.authorization.split(' ')[1]`. -/
def bearerToken (authorization : String) : Option String :=
  (jsSplit authorization ' ')[1]?

/-- The response of the `catch` branch of `auth`. -/
def authFailed : Response := { status := 401, body := .message "Authentication failed!" }

/-- The middleware `auth`: `.ok decoded` stands for `req.userData = decoded; next()`,
`.error res` for the response sent from the `catch` branch. A missing header makes
`.split` throw a `TypeError`, which the same `catch` receives. -/
def auth (P : Platform) (penv : ProcessEnv) (nowMs : Nat) (authorization : Option String) :
    Except Response Payload :=
  match authorization with
  | none => .error authFailed
  | some h =>
    match jwtVerify P (bearerToken h) (JWT_SECRET penv) nowMs with
    | .error _ => .error authFailed
    | .ok decoded => .ok decoded

/-- The body of `POST /api/form`; a field that is absent is `undefined`. -/
structure FormBody where
  fullName : JsValue
  contactNumber : JsValue
  serviceType : JsValue
  projectDescription : JsValue
  deriving DecidableEq, Repr

/-- The handler of `POST /api/form`. `body = none` is `req.body` being `undefined`,
on which the destructuring throws. -/
def postApiForm (P : Platform) (penv : ProcessEnv) (env : Env) (body : Option FormBody)
    (w : World) : Response × World :=
  match body with
  | none => ({ status := 500, body := .message "Error submitting form. Please try again." }, w)
  | some b =>
    match execute P env.dbOk
        (.insertSubmission b.fullName b.contactNumber b.serviceType b.projectDescription env.now)
        w with
    | (.error _, w1) =>
      ({ status := 500, body := .message "Error submitting form. Please try again." }, w1)
    | (.ok _, w1) =>
      let emailData : EmailData :=
        { name := b.fullName, contact_number := b.contactNumber, service := b.serviceType,
          description := b.projectDescription, created_at := .date env.now2 }
      -- inner try/catch: the outcome of the send is logged and dropped
      let w2 := (sendSubmissionEmail P penv env.smtpOk emailData w1).2
      ({ status := 200, body := .message "Form submitted successfully!" }, w2)

/-- The body of `POST /api/admin/login`. -/
structure LoginBody where
  username : JsValue
  password : JsValue
  deriving DecidableEq, Repr

/-- The handler of `POST /api/admin/login`. -/
def postApiAdminLogin (penv : ProcessEnv) (env : Env) (body : Option LoginBody)
    (w : World) : Response × World :=
  match body with
  | none => ({ status := 500, body := .message "Login failed" }, w)
  | some b =>
    if b.username = .string adminUser.username ∧ b.password = .string adminUser.password then
      match jwtSign adminUser.username (JWT_SECRET penv) expiresIn env.now with
      | .error _ => ({ status := 500, body := .message "Login failed" }, w)
      | .ok token =>
        ({ status := 200, body := .token token }, { w with trace := w.trace ++ [.sign token] })
    else
      ({ status := 401, body := .message "Invalid credentials" }, w)

/-- The handler of `GET /api/forms`, after `auth`. -/
def getApiForms (P : Platform) (env : Env) (w : World) : Response × World :=
  match execute P env.dbOk .selectAllNewestFirst w with
  | (.error _, w1) => ({ status := 500, body := .message "Failed to fetch submissions" }, w1)
  | (.ok rows, w1) => ({ status := 200, body := .rows rows }, w1)

/-- The handler of `POST /api/forms/:id/resend`, after `auth`; `id` is `req.params.id`. -/
def postApiFormsResend (P : Platform) (penv : ProcessEnv) (env : Env) (id : String)
    (w : World) : Response × World :=
  match execute P env.dbOk (.selectById id) w with
  | (.error _, w1) => ({ status := 500, body := .message "Failed to resend email" }, w1)
  | (.ok rows, w1) =>
    match rows[0]? with
    | none => ({ status := 404, body := .message "Submission not found" }, w1)
    | some submission =>
      let emailData : EmailData :=
        { name := submission.name, contact_number := submission.contact_number,
          service := submission.service, description := submission.description,
          created_at := .string (P.dateToLocaleString submission.created_at) }
      match sendSubmissionEmail P penv env.smtpOk emailData w1 with
      | (.error _, w2) => ({ status := 500, body := .message "Failed to resend email" }, w2)
      | (.ok _, w2) => ({ status := 200, body := .message "Email resent successfully!" }, w2)

/-- A route registered as `app.METHOD(path, auth, handler)`: the handler runs only when
`auth` calls `next()`. -/
def withAuth (P : Platform) (penv : ProcessEnv) (env : Env) (authorization : Option String)
    (handler : World → Response × World) (w : World) : Response × World :=
  match auth P penv env.now authorization with
  | .error res => (res, w)
  | .ok _ => handler w

/-- The route `GET /api/forms`. -/
def routeGetForms (P : Platform) (penv : ProcessEnv) (env : Env)
    (authorization : Option String) (w : World) : Response × World :=
  withAuth P penv env authorization (getApiForms P env) w

/-- The route `POST /api/forms/:id/resend`. -/
def routeResend (P : Platform) (penv : ProcessEnv) (env : Env)
    (authorization : Option String) (id : String) (w : World) : Response × World :=
  withAuth P penv env authorization (postApiFormsResend P penv env id) w

/-! ## Startup -/

/-- The options object passed to `mysql.createPool`. -/
structure PoolOptions where
  host : Option String
  user : Option String
  password : Option String
  database : Option String
  waitForConnections : Bool
  connectionLimit : Nat
  queueLimit : Nat
  deriving DecidableEq, Repr

/-- How a run of `startServer` ends: the process exits with a code, or the server
listens on a port with its routes registered. -/
inductive ServerOutcome where
  | exited (code : Nat)
  | listening (port : PortValue) (routes : List (String × String))
  deriving DecidableEq, Repr

/-- The routes registered between `app.use` and `app.listen`. -/
def registeredRoutes : List (String × String) :=
  [("POST", "/api/form"), ("POST", "/api/admin/login"), ("GET", "/api/forms"),
   ("POST", "/api/forms/:id/resend")]

/-- The `try` block of `startServer`. The pool options are the identifiers `MYSQL_HOST`,
`MYSQL_USER`, `MYSQL_PASSWORD` and `MYSQL_DATABASE`, evaluated in this order;
`reachable` tells whether `pool.getConnection()` resolves for the given options. -/
def startServerTry (penv : ProcessEnv) (reachable : PoolOptions → Bool) :
    Except JsError ServerOutcome := do
  let host ← evalIdent penv "MYSQL_HOST"
  let user ← evalIdent penv "MYSQL_USER"
  let password ← evalIdent penv "MYSQL_PASSWORD"
  let database ← evalIdent penv "MYSQL_DATABASE"
  let options : PoolOptions :=
    { host := host, user := user, password := password, database := database,
      waitForConnections := true, connectionLimit := 10, queueLimit := 0 }
  if reachable options then
    pure (.listening (port penv) registeredRoutes)
  else
    throw (.error "connect ECONNREFUSED")

/-- The function `startServer`: whatever the `try` block throws ends in
`process.exit(1)`. -/
def startServer (penv : ProcessEnv) (reachable : PoolOptions → Bool) : ServerOutcome :=
  match startServerTry penv reachable with
  | .ok outcome => outcome
  | .error _ => .exited 1

/-! ## Reference values

A concrete platform and concrete inputs, on which the statements below are evaluated. -/

/-- The value of a decimal digit. -/
def digitValue (c : Char) : Option Nat :=
  if 48 ≤ c.toNat ∧ c.toNat ≤ 57 then some (c.toNat - 48) else none

/-- Reading of a run of decimal digits, most significant first. -/
def parseDigits (acc : Nat) : List Char → Option Nat
  | [] => some acc
  | c :: cs =>
    match digitValue c with
    | none => none
    | some d => parseDigits (10 * acc + d) cs

/-- Reading of a non-empty decimal numeral. -/
def parseDecimal (s : String) : Option Nat :=
  match s.toList with
  | [] => none
  | cs => parseDigits 0 cs

/-- A reference platform: dates print as their millisecond count, `Id = ?` holds when
the parameter is the decimal numeral of the id, a token string has the four
dot-separated parts `username.iat.exp.key`, and the table is scanned in primary-key
order. -/
def refPlatform : Platform :=
  { dateToString := fun ms => "Date(" ++ toString ms ++ ")",
    dateToLocaleString := fun ms => "Local(" ++ toString ms ++ ")",
    otherToString := fun tag => "Value(" ++ toString tag ++ ")",
    idMatches := fun s n => parseDecimal s = some n,
    scanOrder := fun rows => rows,
    scanOrder_perm := fun rows => List.Perm.refl rows,
    decodeJwt := fun s =>
      match jsSplit s '.' with
      | [u, i, e, k] =>
        match parseDecimal i, parseDecimal e with
        | some iat, some exp => some { payload := { username := u, iat := iat, exp := exp }, key := k }
        | _, _ => none
      | _ => none }

/-- A complete configuration. -/
def refVars : ProcessEnv :=
  { PORT := none, HOST := some "db.internal", MYSQL_HOST := none, USER := some "svc",
    MYSQL_USER := none, PASSWORD := some "pw", MYSQL_PASSWORD := none,
    DATABASE := some "leads", MYSQL_DATABASE := none, JWT_SECRET := some "s3cret",
    ADMIN_EMAIL := some "owner@example.com", EMAIL_USER := some "bot@example.com",
    EMAIL_PASS := some "mailpw" }

/-- The configuration `refVars` with `JWT_SECRET` unset. -/
def noSecretVars : ProcessEnv := { refVars with JWT_SECRET := none }

/-- An empty table. -/
def emptyWorld : World := { rows := [], nextId := 1, trace := [] }

/-- A request environment in which the store and the relay both work. -/
def envAt (now : Nat) : Env := { now := now, now2 := now, dbOk := true, smtpOk := true }

/-- A submission body. -/
def bodyA : FormBody :=
  { fullName := .string "Ada", contactNumber := .string "100", serviceType := .string "web",
    projectDescription := .string "site" }

/-- A second submission body. -/
def bodyB : FormBody :=
  { fullName := .string "Bob", contactNumber := .string "200", serviceType := .string "app",
    projectDescription := .string "shop" }

/-- A third submission body. -/
def bodyC : FormBody :=
  { fullName := .string "Cy", contactNumber := .string "300", serviceType := .string "seo",
    projectDescription := .string "blog" }

/-- The row the store holds for `bodyA` inserted first at time `t`. -/
def rowA (t : Nat) : Row :=
  { id := 1, name := .string "Ada", contact_number := .string "100", service := .string "web",
    description := .string "site", created_at := t }

/-- The row the store holds for `bodyB` inserted second at time `t`. -/
def rowB (t : Nat) : Row :=
  { id := 2, name := .string "Bob", contact_number := .string "200", service := .string "app",
    description := .string "shop", created_at := t }

/-- The row the store holds for `bodyC` inserted third at time `t`. -/
def rowC (t : Nat) : Row :=
  { id := 3, name := .string "Cy", contact_number := .string "300", service := .string "seo",
    description := .string "blog", created_at := t }

/-- The body carrying the fixed admin credential. -/
def adminBody : LoginBody :=
  { username := .string "admin", password := .string "admin_password" }

/-- The header shape `Bearer <token>` in the words of the specification (not of the
code): the word `Bearer`, one space, and a non-empty token without a space. -/
def isBearerForm (authorization : String) : Bool :=
  match jsSplit authorization ' ' with
  | [scheme, token] => scheme == "Bearer" && token != ""
  | _ => false

/-- The token that `refPlatform` reads from `admin.1.3601.s3cret`: issued for `admin`
in second 1, expiring in second 3601, signed with `s3cret`. -/
def refToken : Token :=
  { payload := { username := "admin", iat := 1, exp := 3601 }, key := "s3cret" }

/-- Three submissions `a`, `b`, `c` sent in this order through `POST /api/form`. -/
def threePosts (P : Platform) (penv : ProcessEnv) (eA eB eC : Env) (a b c : FormBody)
    (w : World) : World :=
  let w1 := (postApiForm P penv eA (some a) w).2
  let w2 := (postApiForm P penv eB (some b) w1).2
  (postApiForm P penv eC (some c) w2).2

/-- A request environment in which the store rejects the statement. -/
def envStoreDown (now : Nat) : Env := { now := now, now2 := now, dbOk := false, smtpOk := true }

/-- A request environment in which the relay rejects the message. -/
def envRelayDown (now : Nat) : Env := { now := now, now2 := now, dbOk := true, smtpOk := false }

/-- A table holding Ada's row (id 1, created at 1000) and Bob's row (id 2, created at
2000). -/
def twoRowWorld : World := { rows := [rowA 1000, rowB 2000], nextId := 3, trace := [] }

/-! ## Theorems: startup -/

/-- C9 (code defect): `startServer` ends in `process.exit(1)` for every configuration
and every database, reachable or not: the pool options name `MYSQL_HOST`, which no scope
binds (the module declares `DB_HOST`), so the `try` block throws before the pool exists
and the routes are never registered. -/
theorem startServer_always_exits (penv : ProcessEnv) (reachable : PoolOptions → Bool) :
    startServer penv reachable = .exited 1 := by
  have h : evalIdent penv "MYSQL_HOST" = .error (.referenceError "MYSQL_HOST") := by
    unfold evalIdent
    rw [if_neg (by decide)]
  simp only [startServer, startServerTry, h]
  rfl

/-! ## Theorems: `POST /api/form` -/

/-- C1: for every request body of `POST /api/form` the response is 200 exactly when the
insert succeeded, that is exactly when the table gained a row; a 200 carries the success
message, every other response is 500 and leaves the table as it was; for a body that can
be destructured the status is 200 exactly when the store accepted the statement; and the
response does not depend on whether the relay accepts the mail. -/
theorem postApiForm_status_iff_insert (P : Platform) (penv : ProcessEnv) (env : Env)
    (body : Option FormBody) (w : World) :
    ((postApiForm P penv env body w).1.status = 200 ↔
        (postApiForm P penv env body w).2.rows.length = w.rows.length + 1) ∧
    ((postApiForm P penv env body w).1.status = 200 →
        (postApiForm P penv env body w).1.body = .message "Form submitted successfully!") ∧
    ((postApiForm P penv env body w).1.status ≠ 200 →
        (postApiForm P penv env body w).1.status = 500 ∧
        (postApiForm P penv env body w).2.rows = w.rows) ∧
    (∀ b, body = some b →
        ((postApiForm P penv env body w).1.status = 200 ↔ env.dbOk = true)) ∧
    (∀ s1 s2 : Bool,
        (postApiForm P penv { env with smtpOk := s1 } body w).1 =
        (postApiForm P penv { env with smtpOk := s2 } body w).1) := by
  cases body with
  | none => simp [postApiForm]
  | some b =>
    cases hdb : env.dbOk <;> cases hs : env.smtpOk <;>
      simp [postApiForm, execute, sendSubmissionEmail, hdb, hs]

/-- C2: a `POST /api/form` whose insert is accepted leaves the table with exactly one
more row: the old rows, unchanged and in place, followed by a new row whose `name`,
`contact_number`, `service` and `description` are the body's `fullName`, `contactNumber`,
`serviceType` and `projectDescription` (and whose `created_at` is the server clock);
this holds for every outcome of the mail send. -/
theorem postApiForm_persists_one_row (P : Platform) (penv : ProcessEnv) (env : Env)
    (b : FormBody) (w : World) (haccepted : env.dbOk = true) :
    (postApiForm P penv env (some b) w).2.rows =
      w.rows ++ [{ id := w.nextId, name := b.fullName, contact_number := b.contactNumber,
                   service := b.serviceType, description := b.projectDescription,
                   created_at := env.now }] ∧
    (postApiForm P penv env (some b) w).2.rows.length = w.rows.length + 1 ∧
    (∀ i (h : i < w.rows.length), (postApiForm P penv env (some b) w).2.rows[i]? = some w.rows[i]) ∧
    (∀ s : Bool, (postApiForm P penv { env with smtpOk := s } (some b) w).2.rows =
      (postApiForm P penv env (some b) w).2.rows) := by
  have hrows : ∀ e : Env, e.dbOk = true → (postApiForm P penv e (some b) w).2.rows =
      w.rows ++ [{ id := w.nextId, name := b.fullName, contact_number := b.contactNumber,
                   service := b.serviceType, description := b.projectDescription,
                   created_at := e.now }] := by
    intro e he
    cases hs : e.smtpOk <;> simp [postApiForm, execute, sendSubmissionEmail, he, hs]
  refine ⟨hrows env haccepted, ?_, ?_, ?_⟩
  · rw [hrows env haccepted]; simp
  · intro i h
    rw [hrows env haccepted, List.getElem?_append_left h, List.getElem?_eq_getElem h]
  · intro s
    rw [hrows env haccepted, hrows { env with smtpOk := s } haccepted]

/-- Witness of C2: Ada's submission at time 1000 into a table that already holds Bob's
row, accepted by the store while the mail relay is down. -/
theorem postApiForm_persists_one_row_witness :
    (envRelayDown 1000).dbOk = true ∧
    (postApiForm refPlatform refVars (envRelayDown 1000) (some bodyA)
        { rows := [rowB 5], nextId := 3, trace := [] }).2.rows =
      [rowB 5, { id := 3, name := .string "Ada", contact_number := .string "100",
                 service := .string "web", description := .string "site",
                 created_at := 1000 }] :=
  ⟨rfl, (postApiForm_persists_one_row refPlatform refVars (envRelayDown 1000) bodyA
    { rows := [rowB 5], nextId := 3, trace := [] } rfl).1⟩

/-! ## Theorems: `POST /api/admin/login` -/

/-- C3 as stated fails: with `JWT_SECRET` unset, the fixed admin credential is answered
500, so "200 if and only if the pair is the admin credential" does not hold. -/
theorem login_admin_pair_without_secret :
    (postApiAdminLogin noSecretVars (envAt 1000) (some adminBody) emptyWorld).1 =
      { status := 500, body := .message "Login failed" } ∧
    ¬ ((postApiAdminLogin noSecretVars (envAt 1000) (some adminBody) emptyWorld).1.status = 200 ↔
        (adminBody.username = .string adminUser.username ∧
         adminBody.password = .string adminUser.password)) := by
  constructor
  · rfl
  · decide

/-- C3 (amended): for every username and password supplied to `POST /api/admin/login`,
the response is 200 exactly when the pair is the fixed admin credential and a signing
secret is configured; a 200 carries a token for `admin`, signed with the secret and
expiring 3600 seconds after issue, and that token is the only one signed; the fixed pair
without a usable secret is answered 500; every other pair is answered 401
`Invalid credentials`, and no token is signed or returned. -/
theorem login_response (penv : ProcessEnv) (env : Env) (b : LoginBody) (w : World) :
    ((postApiAdminLogin penv env (some b) w).1.status = 200 ↔
        ((b.username = .string adminUser.username ∧ b.password = .string adminUser.password) ∧
         ∃ k, JWT_SECRET penv = some k ∧ k ≠ "")) ∧
    ((postApiAdminLogin penv env (some b) w).1.status = 200 →
        ∃ k, JWT_SECRET penv = some k ∧
          (postApiAdminLogin penv env (some b) w) =
            ({ status := 200,
               body := .token { payload := { username := "admin", iat := env.now / 1000,
                                             exp := env.now / 1000 + 3600 }, key := k } },
             { w with trace := w.trace ++
                 [.sign { payload := { username := "admin", iat := env.now / 1000,
                                       exp := env.now / 1000 + 3600 }, key := k }] })) ∧
    ((b.username = .string adminUser.username ∧ b.password = .string adminUser.password) →
        (¬ ∃ k, JWT_SECRET penv = some k ∧ k ≠ "") →
        postApiAdminLogin penv env (some b) w =
          ({ status := 500, body := .message "Login failed" }, w)) ∧
    (¬ (b.username = .string adminUser.username ∧ b.password = .string adminUser.password) →
        postApiAdminLogin penv env (some b) w =
          ({ status := 401, body := .message "Invalid credentials" }, w)) := by
  by_cases hc : b.username = .string adminUser.username ∧ b.password = .string adminUser.password
  · cases hk : JWT_SECRET penv with
    | none => simp [postApiAdminLogin, jwtSign, hc, hk]
    | some k =>
      by_cases hk0 : k = ""
      · simp [postApiAdminLogin, jwtSign, hc, hk, hk0]
      · simp [postApiAdminLogin, jwtSign, hc, hk, hk0, adminUser, expiresIn]
  · simp [postApiAdminLogin, hc]

/-! ## Theorems: the `auth` guard -/

/-- C4 as stated fails: the header `Basic admin.1.3601.s3cret` is not of the form
`Bearer <token>`, yet the guard lets it through, because only the second
space-separated segment is looked at: `GET /api/forms` answers 200 and the store is
read. -/
theorem auth_accepts_other_scheme :
    isBearerForm "Basic admin.1.3601.s3cret" = false ∧
    auth refPlatform refVars 5000 (some "Basic admin.1.3601.s3cret") = .ok refToken.payload ∧
    routeGetForms refPlatform refVars (envAt 5000) (some "Basic admin.1.3601.s3cret") emptyWorld =
      ({ status := 200, body := .rows [] },
       { rows := [], nextId := 1, trace := [.query .selectAllNewestFirst true] }) := by
  refine ⟨by decide, by rfl, by decide⟩

/-- C4 (amended): on a protected route, if the Authorization header is missing, or has
no second space-separated segment, or that segment is not a well-formed token, or the
token was not signed with the configured secret, or it has expired, then the guard
answers 401 with the one body `Authentication failed!` and the handler does not run:
the world, trace included, is unchanged (no store read, no email). The first segment,
the scheme word, is not examined. -/
theorem auth_rejects_uniformly (P : Platform) (penv : ProcessEnv) (env : Env)
    (authorization : Option String) (handler : World → Response × World) (w : World)
    (hbad : authorization = none ∨
      ∃ h, authorization = some h ∧
        (bearerToken h = none ∨
         ∃ s, bearerToken h = some s ∧
           (P.decodeJwt s = none ∨
            ∃ tok, P.decodeJwt s = some tok ∧
              (JWT_SECRET penv ≠ some tok.key ∨ tok.payload.exp ≤ env.now / 1000)))) :
    auth P penv env.now authorization =
      .error { status := 401, body := .message "Authentication failed!" } ∧
    withAuth P penv env authorization handler w =
      ({ status := 401, body := .message "Authentication failed!" }, w) ∧
    routeGetForms P penv env authorization w =
      ({ status := 401, body := .message "Authentication failed!" }, w) ∧
    (∀ id, routeResend P penv env authorization id w =
      ({ status := 401, body := .message "Authentication failed!" }, w)) := by
  have hauth : auth P penv env.now authorization = .error authFailed := by
    rcases hbad with h0 | ⟨h, rfl, hseg⟩
    · subst h0; rfl
    · rcases hseg with hnone | ⟨s, hs, htok⟩
      · simp [auth, jwtVerify, hnone]
      · by_cases hs0 : s = ""
        · simp [auth, jwtVerify, hs, hs0]
        · rcases htok with hdec | ⟨tok, hdec, hrest⟩
          · simp [auth, jwtVerify, hs, hs0, hdec]
          · cases hk : JWT_SECRET penv with
            | none => simp [auth, jwtVerify, hs, hs0, hdec, hk]
            | some k =>
              by_cases hk0 : k = ""
              · simp [auth, jwtVerify, hs, hs0, hdec, hk, hk0]
              · by_cases hkey : tok.key = k
                · have hexp : tok.payload.exp ≤ env.now / 1000 := by
                    rcases hrest with hne | hexp
                    · exact absurd (by rw [hk, hkey]) hne
                    · exact hexp
                  simp [auth, jwtVerify, hs, hs0, hdec, hk, hk0, hkey, hexp]
                · simp [auth, jwtVerify, hs, hs0, hdec, hk, hk0, hkey]
  have hwith : ∀ g : World → Response × World,
      withAuth P penv env authorization g w = (authFailed, w) := by
    intro g
    simp [withAuth, hauth]
  exact ⟨hauth, hwith handler, hwith _, fun id => hwith _⟩

/-- Witness of C4 (amended): the token `admin.1.3601.s3cret`, presented with the scheme
`Bearer` in second 3601, has expired; both protected routes answer 401 and the world is
unchanged. -/
theorem auth_rejects_uniformly_witness :
    auth refPlatform refVars 3601000 (some "Bearer admin.1.3601.s3cret") =
      .error { status := 401, body := .message "Authentication failed!" } ∧
    routeGetForms refPlatform refVars (envAt 3601000) (some "Bearer admin.1.3601.s3cret")
      emptyWorld = ({ status := 401, body := .message "Authentication failed!" }, emptyWorld) ∧
    routeResend refPlatform refVars (envAt 3601000) (some "Bearer admin.1.3601.s3cret") "1"
      emptyWorld = ({ status := 401, body := .message "Authentication failed!" }, emptyWorld) :=
  have h := auth_rejects_uniformly refPlatform refVars (envAt 3601000)
    (some "Bearer admin.1.3601.s3cret") (getApiForms refPlatform (envAt 3601000)) emptyWorld
    (Or.inr ⟨"Bearer admin.1.3601.s3cret", rfl,
      Or.inr ⟨"admin.1.3601.s3cret", by decide,
        Or.inr ⟨refToken, by decide, Or.inr (by decide)⟩⟩⟩)
  ⟨h.1, h.2.2.1, h.2.2.2 "1"⟩

/-! ## Theorems: `GET /api/forms` -/

/-- C5 as stated fails: A is inserted before B, and C last, but A carries the later
timestamp (`created_at` is the wall clock read in the handler before the INSERT is
sent, the store does not assign it): A at 2000, B at 1000, C at 3000. No two timestamps
are equal, so the order by `created_at` descending is forced, and the listing is
[C, A, B], not [C, B, A]. -/
theorem listing_with_out_of_order_timestamps :
    (routeGetForms refPlatform refVars (envAt 9000) (some "Bearer admin.1.3601.s3cret")
      (threePosts refPlatform refVars (envAt 2000) (envAt 1000) (envAt 3000)
        bodyA bodyB bodyC emptyWorld)).1 =
      { status := 200, body := .rows [rowC 3000, rowA 2000, rowB 1000] } ∧
    [rowC 3000, rowA 2000, rowB 1000] ≠ [rowC 3000, rowB 1000, rowA 2000] ∧
    ¬ List.Sorted (fun a b : Row => b.created_at ≤ a.created_at)
        [rowC 3000, rowB 1000, rowA 2000] := by
  refine ⟨by decide, by decide, by decide⟩

/-- The table after an accepted insert. -/
theorem postApiForm_rows_of_accepted (P : Platform) (penv : ProcessEnv) (e : Env)
    (b : FormBody) (w : World) (he : e.dbOk = true) :
    (postApiForm P penv e (some b) w).2.rows =
      w.rows ++ [{ id := w.nextId, name := b.fullName, contact_number := b.contactNumber,
                   service := b.serviceType, description := b.projectDescription,
                   created_at := e.now }] ∧
    (postApiForm P penv e (some b) w).2.nextId = w.nextId + 1 := by
  cases hs : e.smtpOk <;> simp [postApiForm, execute, sendSubmissionEmail, he, hs]

/-- Three rows with strictly increasing `created_at` have one listing only, whatever
the scan order: newest first. -/
theorem sorted_listing_of_three (P : Platform) (ra rb rc : Row)
    (hab : ra.created_at < rb.created_at) (hbc : rb.created_at < rc.created_at) :
    orderByCreatedAtDesc P [ra, rb, rc] = [rc, rb, ra] := by
  haveI : IsTotal Row createdAtDesc := ⟨fun a b => Nat.le_total b.created_at a.created_at⟩
  haveI : IsTrans Row createdAtDesc := ⟨fun a b c h1 h2 => Nat.le_trans h2 h1⟩
  haveI : IsAntisymm Row (fun a b : Row => b.created_at < a.created_at) :=
    ⟨fun a b h1 h2 => absurd h1 (Nat.lt_asymm h2)⟩
  have hrev : [ra, rb, rc].Perm [rc, rb, ra] := List.reverse_perm [rc, rb, ra]
  have hperm : (orderByCreatedAtDesc P [ra, rb, rc]).Perm [rc, rb, ra] :=
    ((List.perm_insertionSort createdAtDesc _).trans (P.scanOrder_perm _)).trans hrev
  have hsorted : (orderByCreatedAtDesc P [ra, rb, rc]).Pairwise createdAtDesc :=
    List.sorted_insertionSort createdAtDesc _
  have hdistinct : [rc, rb, ra].Pairwise (fun a b : Row => a.created_at ≠ b.created_at) := by
    simp only [List.pairwise_cons, List.mem_cons, List.mem_singleton, List.not_mem_nil,
      List.Pairwise.nil, and_true, forall_eq_or_imp, forall_eq, or_false, false_imp_iff,
      implies_true]
    omega
  have hdistinct2 : (orderByCreatedAtDesc P [ra, rb, rc]).Pairwise
      (fun a b : Row => a.created_at ≠ b.created_at) :=
    (hperm.pairwise_iff (fun h => Ne.symm h)).mpr hdistinct
  have hstrict : (orderByCreatedAtDesc P [ra, rb, rc]).Sorted
      (fun a b : Row => b.created_at < a.created_at) :=
    (hsorted.and hdistinct2).imp (fun h => Nat.lt_of_le_of_ne h.1 (Ne.symm h.2))
  have htarget : [rc, rb, ra].Sorted (fun a b : Row => b.created_at < a.created_at) := by
    simp only [List.Sorted, List.pairwise_cons, List.mem_cons, List.mem_singleton,
      List.not_mem_nil, List.Pairwise.nil, and_true, forall_eq_or_imp, forall_eq, or_false,
      false_imp_iff, implies_true]
    omega
  exact List.eq_of_perm_of_sorted hperm hstrict htarget

/-- C5 (amended): an authenticated `GET /api/forms` whose query succeeds returns 200
with all stored submissions (a permutation of the table), ordered by `created_at`
descending; an empty table gives an empty array; and for three submissions A, B, C
inserted in this order into an empty table with strictly increasing creation
timestamps, the listing is [C, B, A]. -/
theorem getForms_newest_first (P : Platform) (penv : ProcessEnv) (env : Env)
    (authorization : Option String) (claims : Payload)
    (hauth : auth P penv env.now authorization = .ok claims) (hquery : env.dbOk = true) :
    (∀ w : World, ∃ listing,
        (routeGetForms P penv env authorization w).1 = { status := 200, body := .rows listing } ∧
        listing.Perm w.rows ∧
        listing.Sorted (fun a b => b.created_at ≤ a.created_at) ∧
        (w.rows = [] → listing = [])) ∧
    (∀ (eA eB eC : Env) (a b c : FormBody) (w : World),
        w.rows = [] → eA.dbOk = true → eB.dbOk = true → eC.dbOk = true →
        eA.now < eB.now → eB.now < eC.now →
        (routeGetForms P penv env authorization (threePosts P penv eA eB eC a b c w)).1 =
          { status := 200,
            body := .rows
              [{ id := w.nextId + 2, name := c.fullName, contact_number := c.contactNumber,
                 service := c.serviceType, description := c.projectDescription,
                 created_at := eC.now },
               { id := w.nextId + 1, name := b.fullName, contact_number := b.contactNumber,
                 service := b.serviceType, description := b.projectDescription,
                 created_at := eB.now },
               { id := w.nextId, name := a.fullName, contact_number := a.contactNumber,
                 service := a.serviceType, description := a.projectDescription,
                 created_at := eA.now }] }) := by
  have hroute : ∀ w : World, (routeGetForms P penv env authorization w).1 =
      { status := 200, body := .rows (orderByCreatedAtDesc P w.rows) } := by
    intro w
    simp [routeGetForms, withAuth, hauth, getApiForms, execute, hquery]
  haveI : IsTotal Row createdAtDesc := ⟨fun a b => Nat.le_total b.created_at a.created_at⟩
  haveI : IsTrans Row createdAtDesc := ⟨fun a b c hab hbc => Nat.le_trans hbc hab⟩
  have hperm : ∀ rows : List Row, (orderByCreatedAtDesc P rows).Perm rows := fun rows =>
    (List.perm_insertionSort createdAtDesc (P.scanOrder rows)).trans (P.scanOrder_perm rows)
  have hsorted : ∀ rows : List Row, (orderByCreatedAtDesc P rows).Sorted createdAtDesc :=
    fun rows => List.sorted_insertionSort createdAtDesc (P.scanOrder rows)
  constructor
  · intro w
    refine ⟨orderByCreatedAtDesc P w.rows, hroute w, hperm w.rows, hsorted w.rows, ?_⟩
    intro hempty
    have h := hperm w.rows
    rw [hempty] at h ⊢
    exact h.eq_nil
  · intro eA eB eC a b c w hw hA hB hC hAB hBC
    have h1 := postApiForm_rows_of_accepted P penv eA a w hA
    have h2 := postApiForm_rows_of_accepted P penv eB b (postApiForm P penv eA (some a) w).2 hB
    have h3 := postApiForm_rows_of_accepted P penv eC c
      (postApiForm P penv eB (some b) (postApiForm P penv eA (some a) w).2).2 hC
    have hAC : eA.now < eC.now := Nat.lt_trans hAB hBC
    rw [hroute]
    simp only [threePosts]
    rw [h3.1, h2.1, h2.2, h1.1, h1.2, hw]
    exact congrArg (fun l => ({ status := 200, body := .rows l } : Response))
      (sorted_listing_of_three P _ _ _ hAB hBC)

/-- Witness of C5 (amended): A, B, C inserted at times 1000, 2000, 3000 into the empty
table are listed as [C, B, A]. -/
theorem getForms_newest_first_witness :
    auth refPlatform refVars 9000 (some "Bearer admin.1.3601.s3cret") = .ok refToken.payload ∧
    (routeGetForms refPlatform refVars (envAt 9000) (some "Bearer admin.1.3601.s3cret")
      (threePosts refPlatform refVars (envAt 1000) (envAt 2000) (envAt 3000)
        bodyA bodyB bodyC emptyWorld)).1 =
      { status := 200, body := .rows [rowC 3000, rowB 2000, rowA 1000] } :=
  ⟨rfl,
   (getForms_newest_first refPlatform refVars (envAt 9000)
      (some "Bearer admin.1.3601.s3cret") refToken.payload rfl rfl).2
      (envAt 1000) (envAt 2000) (envAt 3000) bodyA bodyB bodyC emptyWorld rfl rfl rfl rfl
      (by decide) (by decide)⟩

/-! ## Theorems: `POST /api/forms/:id/resend` -/

/-- The first row of a selection that only `row` satisfies. -/
theorem filter_head_of_unique (rows : List Row) (p : Row → Bool) (row : Row)
    (hmem : row ∈ rows) (hp : p row = true) (huniq : ∀ r ∈ rows, p r = true → r = row) :
    (rows.filter p)[0]? = some row := by
  cases hf : rows.filter p with
  | nil =>
    have : row ∈ rows.filter p := List.mem_filter.mpr ⟨hmem, hp⟩
    rw [hf] at this
    cases this
  | cons x xs =>
    have hx : x ∈ rows.filter p := by rw [hf]; exact List.mem_cons_self x xs
    have hx2 := List.mem_filter.mp hx
    simp [huniq x hx2.1 hx2.2]

/-- A selection no row satisfies is empty. -/
theorem filter_eq_nil_of_none (rows : List Row) (p : Row → Bool)
    (hno : ∀ r ∈ rows, p r = false) : rows.filter p = [] := by
  rw [List.filter_eq_nil_iff]
  intro r hr
  simp [hno r hr]

/-- C6 as stated fails: no row has id 7, the caller is authenticated, and the store
rejects the lookup; the response is 500, not 404. -/
theorem resend_unknown_id_store_down :
    (∀ r ∈ twoRowWorld.rows, refPlatform.idMatches "7" r.id = false) ∧
    auth refPlatform refVars 5000 (some "Bearer admin.1.3601.s3cret") = .ok refToken.payload ∧
    (routeResend refPlatform refVars (envStoreDown 5000) (some "Bearer admin.1.3601.s3cret") "7"
      twoRowWorld).1 = { status := 500, body := .message "Failed to resend email" } := by
  refine ⟨by decide, by rfl, by decide⟩

/-- C6 (amended): for every table and every id that matches no stored submission, an
authenticated `POST /api/forms/:id/resend` returns 404 when its lookup query succeeds
and 500 when the lookup query fails; in both cases the only external call is the
lookup itself, so the notifier is never invoked and no email is sent, and the table is
unchanged. -/
theorem resend_unknown_id (P : Platform) (penv : ProcessEnv) (env : Env)
    (authorization : Option String) (claims : Payload) (id : String) (w : World)
    (hauth : auth P penv env.now authorization = .ok claims)
    (hno : ∀ r ∈ w.rows, P.idMatches id r.id = false) :
    (env.dbOk = true → (routeResend P penv env authorization id w).1 =
        { status := 404, body := .message "Submission not found" }) ∧
    (env.dbOk = false → (routeResend P penv env authorization id w).1 =
        { status := 500, body := .message "Failed to resend email" }) ∧
    (routeResend P penv env authorization id w).2 =
        { w with trace := w.trace ++ [.query (.selectById id) env.dbOk] } ∧
    (∀ m ok, Event.mail m ok ∉ (routeResend P penv env authorization id w).2.trace.drop
        w.trace.length) := by
  have hf := filter_eq_nil_of_none w.rows (fun r => P.idMatches id r.id) hno
  cases hdb : env.dbOk <;>
    simp [routeResend, withAuth, hauth, postApiFormsResend, execute, hdb, hf]

/-- Witness of C6 (amended): id 7 against the table of Ada and Bob, store up. -/
theorem resend_unknown_id_witness :
    (∀ r ∈ twoRowWorld.rows, refPlatform.idMatches "7" r.id = false) ∧
    (routeResend refPlatform refVars (envAt 5000) (some "Bearer admin.1.3601.s3cret") "7"
      twoRowWorld).1 = { status := 404, body := .message "Submission not found" } ∧
    (routeResend refPlatform refVars (envAt 5000) (some "Bearer admin.1.3601.s3cret") "7"
      twoRowWorld).2 = { twoRowWorld with trace := [.query (.selectById "7") true] } :=
  have h := resend_unknown_id refPlatform refVars (envAt 5000)
    (some "Bearer admin.1.3601.s3cret") refToken.payload "7" twoRowWorld rfl (by decide)
  ⟨by decide, h.1 rfl, h.2.2.1⟩

/-- C7: for every table and every id of an existing submission, an authenticated
`POST /api/forms/:id/resend` whose mail send fails returns 500 (whereas
`POST /api/form` in the same environment returns 200 once its insert is accepted), and
the table after the request is the table before it: no row is modified or deleted and
the id counter is unchanged. When the lookup succeeded, the trace shows the lookup and
one rejected send. -/
theorem resend_mail_failure (P : Platform) (penv : ProcessEnv) (env : Env)
    (authorization : Option String) (claims : Payload) (id : String) (w : World)
    (hauth : auth P penv env.now authorization = .ok claims)
    (hexists : ∃ r ∈ w.rows, P.idMatches id r.id = true)
    (hmail : env.smtpOk = false) :
    (routeResend P penv env authorization id w).1 =
        { status := 500, body := .message "Failed to resend email" } ∧
    (routeResend P penv env authorization id w).2.rows = w.rows ∧
    (routeResend P penv env authorization id w).2.nextId = w.nextId ∧
    (env.dbOk = true → ∃ m, (routeResend P penv env authorization id w).2.trace =
        w.trace ++ [.query (.selectById id) true, .mail m false]) ∧
    (env.dbOk = true → ∀ b, (postApiForm P penv env (some b) w).1.status = 200) := by
  obtain ⟨r, hr, hid⟩ := hexists
  have hmemf : r ∈ w.rows.filter (fun r => P.idMatches id r.id) :=
    List.mem_filter.mpr ⟨hr, hid⟩
  cases hf : w.rows.filter (fun r => P.idMatches id r.id) with
  | nil => rw [hf] at hmemf; cases hmemf
  | cons x xs =>
    cases hdb : env.dbOk <;>
      simp [routeResend, withAuth, hauth, postApiFormsResend, execute, hdb, hf,
        sendSubmissionEmail, hmail, postApiForm]

/-- Witness of C7: resending Bob's submission (id 2) with the relay down. -/
theorem resend_mail_failure_witness :
    (∃ r ∈ twoRowWorld.rows, refPlatform.idMatches "2" r.id = true) ∧
    (routeResend refPlatform refVars (envRelayDown 5000) (some "Bearer admin.1.3601.s3cret") "2"
      twoRowWorld).1 = { status := 500, body := .message "Failed to resend email" } ∧
    (routeResend refPlatform refVars (envRelayDown 5000) (some "Bearer admin.1.3601.s3cret") "2"
      twoRowWorld).2.rows = twoRowWorld.rows :=
  have h := resend_mail_failure refPlatform refVars (envRelayDown 5000)
    (some "Bearer admin.1.3601.s3cret") refToken.payload "2" twoRowWorld rfl
    ⟨rowB 2000, by decide, by decide⟩ rfl
  ⟨⟨rowB 2000, by decide, by decide⟩, h.1, h.2.1⟩

/-- Each of the five arguments of the template occurs in the text it produces. -/
theorem htmlTemplate_embeds (n c s d t : String) :
    (∃ pre post, htmlTemplate n c s d t = pre ++ n ++ post) ∧
    (∃ pre post, htmlTemplate n c s d t = pre ++ c ++ post) ∧
    (∃ pre post, htmlTemplate n c s d t = pre ++ s ++ post) ∧
    (∃ pre post, htmlTemplate n c s d t = pre ++ d ++ post) ∧
    (∃ pre post, htmlTemplate n c s d t = pre ++ t ++ post) := by
  refine ⟨⟨"\n                    <h2>New Contact Form Submission</h2>" ++
            "\n                    <p><strong>Name:</strong> ",
           "</p>" ++
            "\n                    <p><strong>Contact Number:</strong> " ++ c ++ "</p>" ++
            "\n                    <p><strong>Service:</strong> " ++ s ++ "</p>" ++
            "\n                    <p><strong>Description:</strong> " ++ d ++ "</p>" ++
            "\n                    <p><strong>Submission Date:</strong> " ++ t ++ "</p>" ++
            "\n                ", ?_⟩,
          ⟨"\n                    <h2>New Contact Form Submission</h2>" ++
            "\n                    <p><strong>Name:</strong> " ++ n ++ "</p>" ++
            "\n                    <p><strong>Contact Number:</strong> ",
           "</p>" ++
            "\n                    <p><strong>Service:</strong> " ++ s ++ "</p>" ++
            "\n                    <p><strong>Description:</strong> " ++ d ++ "</p>" ++
            "\n                    <p><strong>Submission Date:</strong> " ++ t ++ "</p>" ++
            "\n                ", ?_⟩,
          ⟨"\n                    <h2>New Contact Form Submission</h2>" ++
            "\n                    <p><strong>Name:</strong> " ++ n ++ "</p>" ++
            "\n                    <p><strong>Contact Number:</strong> " ++ c ++ "</p>" ++
            "\n                    <p><strong>Service:</strong> ",
           "</p>" ++
            "\n                    <p><strong>Description:</strong> " ++ d ++ "</p>" ++
            "\n                    <p><strong>Submission Date:</strong> " ++ t ++ "</p>" ++
            "\n                ", ?_⟩,
          ⟨"\n                    <h2>New Contact Form Submission</h2>" ++
            "\n                    <p><strong>Name:</strong> " ++ n ++ "</p>" ++
            "\n                    <p><strong>Contact Number:</strong> " ++ c ++ "</p>" ++
            "\n                    <p><strong>Service:</strong> " ++ s ++ "</p>" ++
            "\n                    <p><strong>Description:</strong> ",
           "</p>" ++
            "\n                    <p><strong>Submission Date:</strong> " ++ t ++ "</p>" ++
            "\n                ", ?_⟩,
          ⟨"\n                    <h2>New Contact Form Submission</h2>" ++
            "\n                    <p><strong>Name:</strong> " ++ n ++ "</p>" ++
            "\n                    <p><strong>Contact Number:</strong> " ++ c ++ "</p>" ++
            "\n                    <p><strong>Service:</strong> " ++ s ++ "</p>" ++
            "\n                    <p><strong>Description:</strong> " ++ d ++ "</p>" ++
            "\n                    <p><strong>Submission Date:</strong> ",
           "</p>" ++ "\n                ", ?_⟩⟩ <;>
    simp only [htmlTemplate, String.append_assoc]

/-- C10: for every stored submission and its id, an authenticated
`POST /api/forms/:id/resend` whose lookup is answered and whose mail send succeeds (the
relay accepts the message) returns 200 and sends exactly one email: the trace gains the
lookup and one accepted send, nothing else; the email is addressed to `ADMIN_EMAIL`,
and its HTML body is the template filled with the stored row's name, contact number,
service and description and with the stored `created_at` in locale format, each of
which occurs in the body. Nothing in the email depends on the clock of the resend
request. -/
theorem resend_sends_stored_row (P : Platform) (penv : ProcessEnv) (env : Env)
    (authorization : Option String) (claims : Payload) (id : String) (w : World) (row : Row)
    (hauth : auth P penv env.now authorization = .ok claims)
    (hstored : row ∈ w.rows) (hid : P.idMatches id row.id = true)
    (hunique : ∀ r ∈ w.rows, P.idMatches id r.id = true → r = row)
    (hquery : env.dbOk = true) (hmail : env.smtpOk = true) :
    ∃ m : Email,
      routeResend P penv env authorization id w =
        ({ status := 200, body := .message "Email resent successfully!" },
         { w with trace := w.trace ++ [.query (.selectById id) true, .mail m true] }) ∧
      m.to_ = ADMIN_EMAIL penv ∧
      m.subject = "New Form Submission: " ++ jsString P row.service ∧
      m.html = htmlTemplate (jsString P row.name) (jsString P row.contact_number)
        (jsString P row.service) (jsString P row.description)
        (P.dateToLocaleString row.created_at) ∧
      (∃ pre post, m.html = pre ++ jsString P row.name ++ post) ∧
      (∃ pre post, m.html = pre ++ jsString P row.contact_number ++ post) ∧
      (∃ pre post, m.html = pre ++ jsString P row.service ++ post) ∧
      (∃ pre post, m.html = pre ++ jsString P row.description ++ post) ∧
      (∃ pre post, m.html = pre ++ P.dateToLocaleString row.created_at ++ post) := by
  have hf := filter_head_of_unique w.rows (fun r => P.idMatches id r.id) row hstored hid hunique
  have hemb := htmlTemplate_embeds (jsString P row.name) (jsString P row.contact_number)
    (jsString P row.service) (jsString P row.description) (P.dateToLocaleString row.created_at)
  refine ⟨mailOptions P penv
    { name := row.name, contact_number := row.contact_number, service := row.service,
      description := row.description,
      created_at := .string (P.dateToLocaleString row.created_at) }, ?_, rfl, rfl, rfl, ?_⟩
  · simp [routeResend, withAuth, hauth, postApiFormsResend, execute, hquery, hf,
      sendSubmissionEmail, hmail]
  · exact hemb

/-- Witness of C10: resending Ada's submission (id 1, created at 1000) at time 5000,
store and relay up; the one email carries Ada's row, not Bob's. -/
theorem resend_sends_stored_row_witness :
    ((envAt 5000).dbOk = true ∧ (envAt 5000).smtpOk = true) ∧
    ∃ m : Email,
      routeResend refPlatform refVars (envAt 5000) (some "Bearer admin.1.3601.s3cret") "1"
          twoRowWorld =
        ({ status := 200, body := .message "Email resent successfully!" },
         { twoRowWorld with trace := [.query (.selectById "1") true, .mail m true] }) ∧
      m.to_ = some "owner@example.com" ∧
      m.html = htmlTemplate "Ada" "100" "web" "site" (refPlatform.dateToLocaleString 1000) :=
  have h := resend_sends_stored_row refPlatform refVars (envAt 5000)
    (some "Bearer admin.1.3601.s3cret") refToken.payload "1" twoRowWorld (rowA 1000) rfl
    (by decide) (by decide) (by decide) rfl rfl
  ⟨⟨rfl, rfl⟩, h.elim fun m hm => ⟨m, hm.1, hm.2.1, hm.2.2.2.1⟩⟩

/-! ## Theorems: the token lifecycle -/

/-- A text without the separator is its own single segment. -/
theorem splitChars_of_not_mem (sep : Char) (cs : List Char) (h : sep ∉ cs) :
    splitChars sep cs = [cs] := by
  induction cs with
  | nil => rfl
  | cons c cs ih =>
    have hc : c ≠ sep := fun e => h (by simp [e])
    have hcs : sep ∉ cs := fun e => h (List.mem_cons_of_mem c e)
    simp [splitChars, hc, ih hcs]

/-- The second segment of `Bearer <token>` is the token, when the token has no space. -/
theorem bearerToken_of_bearer (s : String) (h : ' ' ∉ s.toList) :
    bearerToken ("Bearer " ++ s) = some s := by
  have h0 : splitChars ' ' s.data = [s.data] := splitChars_of_not_mem ' ' s.data h
  have hsplit : splitChars ' ' ('B' :: 'e' :: 'a' :: 'r' :: 'e' :: 'r' :: ' ' :: s.data) =
      ['B', 'e', 'a', 'r', 'e', 'r'] :: [s.data] := by
    simp [splitChars, h0]
  simp [bearerToken, jsSplit, hsplit]

/-- What a 200 from the login handler says about the token it carries. -/
theorem login_token_inv (penv : ProcessEnv) (env : Env) (b : LoginBody) (w : World)
    (tok : Token)
    (h : (postApiAdminLogin penv env (some b) w).1 = { status := 200, body := .token tok }) :
    ∃ k, JWT_SECRET penv = some k ∧ k ≠ "" ∧
      tok = { payload := { username := "admin", iat := env.now / 1000,
                           exp := env.now / 1000 + 3600 }, key := k } := by
  by_cases hc : b.username = .string adminUser.username ∧ b.password = .string adminUser.password
  · cases hk : JWT_SECRET penv with
    | none => simp [postApiAdminLogin, jwtSign, hc, hk] at h
    | some k =>
      by_cases hk0 : k = ""
      · simp [postApiAdminLogin, jwtSign, hc, hk, hk0] at h
      · simp [postApiAdminLogin, jwtSign, hc, hk, hk0, adminUser, expiresIn] at h
        exact ⟨k, rfl, hk0, h.symm⟩
  · simp [postApiAdminLogin, hc] at h

/-- C8 as stated fails: the token issued at t = 1999 ms carries `iat` = second 1 and
`exp` = second 3601; presented at 3601000 ms, which is before t + 1 hour = 3601999 ms,
it is answered 401, because issue time and clock are both cut to whole seconds. -/
theorem token_rejected_before_the_hour :
    (postApiAdminLogin refVars (envAt 1999) (some adminBody) emptyWorld).1 =
      { status := 200, body := .token refToken } ∧
    refPlatform.decodeJwt "admin.1.3601.s3cret" = some refToken ∧
    3601000 < 1999 + 3600000 ∧
    (routeGetForms refPlatform refVars (envAt 3601000) (some "Bearer admin.1.3601.s3cret")
      emptyWorld).1 = { status := 401, body := .message "Authentication failed!" } := by
  refine ⟨by decide, by decide, by decide, by decide⟩

/-- C8 (amended): a token issued by a successful login at time t (milliseconds),
presented as `Bearer <token>` to `GET /api/forms`, is accepted by the guard (the request
is not answered 401) at every time whose whole second is below the whole second of t
plus 3600, in particular at every time up to t + 1 hour - 1 second; at every time from
t + 1 hour on the request is answered 401; and once the guard has rejected the token, it
rejects it at every later time. -/
theorem token_validity_window (P : Platform) (penv : ProcessEnv) (env : Env) (b : LoginBody)
    (w : World) (tok : Token) (s : String)
    (hlogin : (postApiAdminLogin penv env (some b) w).1 = { status := 200, body := .token tok })
    (hwire : P.decodeJwt s = some tok) (hne : s ≠ "") (hspace : ' ' ∉ s.toList) :
    (∀ (env1 : Env) (w1 : World), env1.now / 1000 < env.now / 1000 + 3600 →
        auth P penv env1.now (some ("Bearer " ++ s)) = .ok tok.payload ∧
        (routeGetForms P penv env1 (some ("Bearer " ++ s)) w1).1.status ≠ 401) ∧
    (∀ (env1 : Env) (w1 : World), env1.now + 1000 ≤ env.now + 3600000 →
        (routeGetForms P penv env1 (some ("Bearer " ++ s)) w1).1.status ≠ 401) ∧
    (∀ (env1 : Env) (w1 : World), env.now + 3600000 ≤ env1.now →
        routeGetForms P penv env1 (some ("Bearer " ++ s)) w1 =
          ({ status := 401, body := .message "Authentication failed!" }, w1)) ∧
    (∀ n1 n2 : Nat, n1 ≤ n2 →
        auth P penv n1 (some ("Bearer " ++ s)) = .error authFailed →
        auth P penv n2 (some ("Bearer " ++ s)) = .error authFailed) := by
  obtain ⟨k, hk, hk0, htok⟩ := login_token_inv penv env b w tok hlogin
  have hbt := bearerToken_of_bearer s hspace
  have hkey : tok.key = k := by rw [htok]
  have hexp : tok.payload.exp = env.now / 1000 + 3600 := by rw [htok]
  have hauth : ∀ n : Nat, auth P penv n (some ("Bearer " ++ s)) =
      if env.now / 1000 + 3600 ≤ n / 1000 then .error authFailed else .ok tok.payload := by
    intro n
    simp only [auth, jwtVerify, hbt, hwire, hk, hkey, hexp]
    by_cases hn : env.now / 1000 + 3600 ≤ n / 1000 <;> simp [hne, hk0, hn]
  have hok : ∀ (env1 : Env) (w1 : World), env1.now / 1000 < env.now / 1000 + 3600 →
      auth P penv env1.now (some ("Bearer " ++ s)) = .ok tok.payload ∧
      (routeGetForms P penv env1 (some ("Bearer " ++ s)) w1).1.status ≠ 401 := by
    intro env1 w1 hlt
    have ha : auth P penv env1.now (some ("Bearer " ++ s)) = .ok tok.payload := by
      rw [hauth, if_neg (Nat.not_le.mpr hlt)]
    refine ⟨ha, ?_⟩
    cases hdb : env1.dbOk <;> simp [routeGetForms, withAuth, ha, getApiForms, execute, hdb]
  refine ⟨hok, ?_, ?_, ?_⟩
  · intro env1 w1 hle
    exact (hok env1 w1 (by omega)).2
  · intro env1 w1 hge
    have ha : auth P penv env1.now (some ("Bearer " ++ s)) = .error authFailed := by
      rw [hauth, if_pos (by omega)]
    simp [routeGetForms, withAuth, ha, authFailed]
  · intro n1 n2 hle h1
    rw [hauth] at h1 ⊢
    by_cases hn : env.now / 1000 + 3600 ≤ n1 / 1000
    · rw [if_pos (by omega)]
    · rw [if_neg hn] at h1
      cases h1

/-- Witness of C8 (amended): the token issued at 1999 ms is accepted at 3600999 ms and
answered 401 at 3601999 ms, one hour after issue. -/
theorem token_validity_window_witness :
    (postApiAdminLogin refVars (envAt 1999) (some adminBody) emptyWorld).1 =
      { status := 200, body := .token refToken } ∧
    (routeGetForms refPlatform refVars (envAt 3600999) (some ("Bearer " ++ "admin.1.3601.s3cret"))
      emptyWorld).1.status ≠ 401 ∧
    routeGetForms refPlatform refVars (envAt 3601999) (some ("Bearer " ++ "admin.1.3601.s3cret"))
      emptyWorld = ({ status := 401, body := .message "Authentication failed!" }, emptyWorld) :=
  have h := token_validity_window refPlatform refVars (envAt 1999) adminBody emptyWorld
    refToken "admin.1.3601.s3cret" (by decide) (by decide) (by decide) (by decide)
  ⟨by decide, (h.1 (envAt 3600999) emptyWorld (by decide)).2,
   h.2.2.1 (envAt 3601999) emptyWorld (by decide)⟩

end ServiceBackend
